import Mathlib

/-!
Verification of the kube-rca agent service (Go).

The embedding below translates the data model and the request handlers of
the service into Lean: the gin JSON bodies become an explicit JSON value
type, the handlers become functions from the bind result (the outcome of
ShouldBindJSON) to an HTTP response, and the route table of main.go becomes
an explicit list. Components of the design that are described in the
specification but whose code is not part of the repository snapshot (the
sensitive-data masker and the prompt budgeter) are modelled from the
specification text and marked as such on their definitions.
-/

namespace KubeRca

/-- JSON values, modelling the bodies that gin serializes with c.JSON.
An object is an ordered list of key-value pairs, written in the order the
source builds the gin.H literal. -/
inductive Json where
  | str : String → Json
  | num : Int → Json
  | obj : List (String × Json) → Json
  | arr : List Json → Json

/-- Field lookup on a JSON object; none on non-objects. -/
def getField (j : Json) (k : String) : Option Json :=
  match j with
  | Json.obj kvs => kvs.lookup k
  | _ => none

/-- Whether a JSON value is an object (a structured value with fields). -/
def Json.isObj : Json → Bool
  | Json.obj _ => true
  | _ => false

/-- An HTTP response as produced by c.JSON: a status code and a JSON body. -/
structure HttpResponse where
  status : Nat
  body : Json

/-- The request context a gin handler receives; the parts of it that carry
request data are modelled as plain fields. -/
structure GinContext where
  method : String
  path : String
  requestBody : String
deriving DecidableEq

/-- internal/model Alert: one Alertmanager alert. The two timestamps and the
URL are kept as strings. Label and annotation maps are association lists. -/
structure Alert where
  Status : String
  Labels : List (String × String)
  Annotations : List (String × String)
  StartsAt : String
  EndsAt : String
  GeneratorURL : String
  Fingerprint : String
deriving DecidableEq

/-- internal/model AlertAnalysisRequest: the body of the analyze endpoint. -/
structure AlertAnalysisRequest where
  Alert : Alert
  ThreadTS : String
  CallbackURL : String
deriving DecidableEq

/-- internal/model AlertmanagerWebhook. -/
structure AlertmanagerWebhook where
  Version : String
  GroupKey : String
  TruncatedAlerts : Nat
  Status : String
  Receiver : String
  GroupLabels : List (String × String)
  CommonLabels : List (String × String)
  CommonAnnotations : List (String × String)
  ExternalURL : String
  Alerts : List Alert
deriving DecidableEq

namespace AnalysisService

/-- internal/service: placeholder response until analysis is implemented. -/
def analysisCompleteMessage : String := "Analysis Complete!"

/-- internal/service AnalysisService.AnalyzeAlertRequest: ignores its
argument and returns the placeholder message. -/
def AnalyzeAlertRequest (_ : AlertAnalysisRequest) : String :=
  analysisCompleteMessage

/-- internal/service AnalysisService.AnalyzeWebhook: ignores its argument
and returns the placeholder message. -/
def AnalyzeWebhook (_ : AlertmanagerWebhook) : String :=
  analysisCompleteMessage

end AnalysisService

namespace AnalysisHandler

/-- internal/handler AnalysisHandler.AnalyzeAlertRequest. The argument is
the outcome of ShouldBindJSON on the request body: none when binding fails
(malformed body), some request when it succeeds. On failure the handler
answers 400 with an error body and never calls the service; on success it
answers 200 with status ok, the echoed thread_ts, and the service result. -/
def AnalyzeAlertRequest (bind : Option AlertAnalysisRequest) : HttpResponse :=
  match bind with
  | none =>
      { status := 400, body := Json.obj [("error", Json.str "invalid payload")] }
  | some request =>
      { status := 200
        body := Json.obj
          [ ("status", Json.str "ok")
          , ("thread_ts", Json.str request.ThreadTS)
          , ("analysis", Json.str (AnalysisService.AnalyzeAlertRequest request)) ] }

end AnalysisHandler

namespace HealthHandler

/-- internal/handler Ping. -/
def Ping (_ : GinContext) : HttpResponse :=
  { status := 200, body := Json.obj [("message", Json.str "pong")] }

/-- internal/handler Healthz. -/
def Healthz (_ : GinContext) : HttpResponse :=
  { status := 200, body := Json.obj [("status", Json.str "ok")] }

/-- internal/handler Root. -/
def Root (_ : GinContext) : HttpResponse :=
  { status := 200
    body := Json.obj
      [ ("status", Json.str "ok")
      , ("message", Json.str "kube-rca-agent is running") ] }

end HealthHandler

/-- The route table registered in main.go: method and path of every route. -/
def routes : List (String × String) :=
  [ ("GET", "/ping")
  , ("GET", "/healthz")
  , ("GET", "/")
  , ("POST", "/analyze/alertmanager") ]

/-- The alert of the OOMKilled example in the specification. -/
def oomAlert : Alert :=
  { Status := "firing"
    Labels := [("alertname", "OOMKilled"), ("namespace", "kube-rca"), ("pod", "p1")]
    Annotations := [("summary", "OOMKilled detected")]
    StartsAt := "2024-01-01T00:00:00Z"
    EndsAt := "0001-01-01T00:00:00Z"
    GeneratorURL := ""
    Fingerprint := "oom-fp" }

/-- The OOMKilled example request on thread t1. -/
def oomRequest : AlertAnalysisRequest :=
  { Alert := oomAlert
    ThreadTS := "t1"
    CallbackURL := "" }

/-- A well-formed test request used as a concrete input. -/
def testRequest : AlertAnalysisRequest :=
  { Alert :=
      { Status := "firing"
        Labels := [("alertname", "TestAlert"), ("severity", "warning"),
                   ("namespace", "default"), ("pod", "example-pod")]
        Annotations := [("summary", "test summary"), ("description", "test description")]
        StartsAt := "2024-01-01T00:00:00Z"
        EndsAt := "0001-01-01T00:00:00Z"
        GeneratorURL := ""
        Fingerprint := "test-fingerprint" }
    ThreadTS := "1234567890.123456"
    CallbackURL := "http://kube-rca-backend.kube-rca.svc:8080/callback/agent" }

/-- A second well-formed request with the same thread_ts as testRequest but
a different alert and a different callback URL. -/
def testRequestVariant : AlertAnalysisRequest :=
  { Alert := oomAlert
    ThreadTS := "1234567890.123456"
    CallbackURL := "http://elsewhere.example/callback" }

/-- Modelled from the spec: the sensitive-data masker of the design is not
part of the repository snapshot (the changelog records the regex masking
feature, but its code is absent). A masking rule pairs a pattern, modelled
as a predicate on one word of text, with a fixed replacement placeholder. -/
structure MaskRule where
  pattern : String → Bool
  replacement : String

/-- Modelled from the spec: one rule replaces every matched word of the
text with the fixed placeholder of the rule, preserving surrounding words,
as in the specification example on the social-security number. Text is
modelled as the list of its words. -/
def applyRule (r : MaskRule) (text : List String) : List String :=
  text.map (fun w => if r.pattern w then r.replacement else w)

/-- Modelled from the spec: mask applies the rules in fixed order; later
rules operate on text already redacted by earlier rules. -/
def mask : List MaskRule → List String → List String
  | [], text => text
  | r :: rs, text => mask rs (applyRule r text)

/-- The effect of the ordered ruleset on one word of text. -/
def maskWord : List MaskRule → String → String
  | [], w => w
  | r :: rs, w => maskWord rs (if r.pattern w then r.replacement else w)

/-- A word matches the configured ruleset when some rule pattern accepts it. -/
def matchesAny (rules : List MaskRule) (w : String) : Bool :=
  rules.any (fun r => r.pattern w)

/-- A ruleset has clean placeholders when no pattern of the ruleset matches
any replacement placeholder of the ruleset. -/
def placeholdersClean (rules : List MaskRule) : Bool :=
  rules.all (fun r => rules.all (fun q => !(q.pattern r.replacement)))

/-- A two-rule set whose second placeholder is matched by the first rule;
the ruleset of the counterexample to claim C8 as stated. -/
def badRules : List MaskRule :=
  [ { pattern := fun w => w == "b", replacement := "c" }
  , { pattern := fun w => w == "a", replacement := "b" } ]

/-- The ruleset of the specification example: redact the social-security
number. -/
def ssnRules : List MaskRule :=
  [ { pattern := fun w => w == "123-45-6789", replacement := "[REDACTED]" } ]

/-- The text of the specification example, as its list of words. -/
def ssnText : List String := ["ssn", "123-45-6789", "found"]

/-- Modelled from the spec: the prompt budgeter of the design is not part
of the repository snapshot. The token estimate of a text fragment is a
fixed characters-per-token ratio of one, a deterministic approximation
monotonic in input length. -/
def estimateTokens (s : String) : Nat := s.length

/-- The estimated size of one section: the sum of its fragment estimates. -/
def sectionEstimate (xs : List String) : Nat := (xs.map estimateTokens).sum

/-- Modelled from the spec: the budget configuration — total token budget,
max log lines, max event count, max prior-summary items. -/
structure PromptConfig where
  tokenBudget : Nat
  maxLogLines : Nat
  maxEvents : Nat
  maxSummaryItems : Nat
deriving DecidableEq

/-- Modelled from the spec: the raw collected telemetry for one alert.
Log lines and events are most-recent-first bounded sequences; metric
samples are rendered triples. -/
structure ContextBundle where
  logLines : List String
  events : List String
  statusSnapshot : List String
  metricSamples : List String
deriving DecidableEq

/-- Modelled from the spec: the identity section of the prompt — the
labels and annotation values of the alert, included verbatim. -/
def identitySection (alert : Alert) : List String :=
  alert.Labels.map (fun kv => kv.1 ++ "=" ++ kv.2) ++
  alert.Annotations.map (fun kv => kv.1 ++ "=" ++ kv.2)

/-- Modelled from the spec: the candidate sections after the identity
section, in priority order — prior summaries up to the configured item
count (newest kept, oldest dropped first), events and log lines truncated
to their configured counts most-recent-first, metric samples last. -/
def candidateSections (cfg : PromptConfig) (summaries : List String)
    (bundle : ContextBundle) : List (List String) :=
  [ summaries.take cfg.maxSummaryItems
  , bundle.events.take cfg.maxEvents
  , bundle.logLines.take cfg.maxLogLines
  , bundle.metricSamples ]

/-- The budget-bounded assembly: included sections and the carried
estimate. -/
structure PromptDocument where
  sections : List (List String)
  estimate : Nat

/-- Modelled from the spec: walk the candidate sections in priority order,
a section is included whole when it fits in the remaining budget and is
omitted entirely otherwise; returns the included sections and the final
running estimate. -/
def fitSections (budget : Nat) : Nat → List (List String) → List (List String) × Nat
  | acc, [] => ([], acc)
  | acc, s :: rest =>
      if acc + sectionEstimate s ≤ budget then
        let p := fitSections budget (acc + sectionEstimate s) rest
        (s :: p.1, p.2)
      else
        fitSections budget acc rest

/-- Modelled from the spec: build the PromptDocument — the identity
section is always included, then the candidate sections are fitted to the
remaining budget. -/
def buildPrompt (cfg : PromptConfig) (alert : Alert) (summaries : List String)
    (bundle : ContextBundle) : PromptDocument :=
  let idSec := identitySection alert
  let p := fitSections cfg.tokenBudget (sectionEstimate idSec)
    (candidateSections cfg summaries bundle)
  { sections := idSec :: p.1, estimate := p.2 }

/-- The default budget configuration of the specification. -/
def demoConfig : PromptConfig :=
  { tokenBudget := 32000, maxLogLines := 25, maxEvents := 25, maxSummaryItems := 3 }

/-- A configuration with a zero token budget, used against claim C9 as
stated. -/
def zeroConfig : PromptConfig :=
  { tokenBudget := 0, maxLogLines := 25, maxEvents := 25, maxSummaryItems := 3 }

/-- A small concrete telemetry bundle. -/
def demoBundle : ContextBundle :=
  { logLines := ["line two", "line one"]
    events := ["BackOff pulling image"]
    statusSnapshot := ["Running"]
    metricSamples := ["memory 1700000000 0.97"] }

/-- Claim C1, counterexample: on a concrete well-formed request the service
answers 200, but the analysis field of the body is the plain string
produced by the service, not a structured object with summary and detail
fields. -/
theorem c1_counterexample :
    (AnalysisHandler.AnalyzeAlertRequest (some testRequest)).status = 200 ∧
    getField (AnalysisHandler.AnalyzeAlertRequest (some testRequest)).body "analysis"
      = some (Json.str "Analysis Complete!") ∧
    (getField (AnalysisHandler.AnalyzeAlertRequest (some testRequest)).body
        "analysis").map Json.isObj = some false := by
  refine ⟨rfl, ?_, ?_⟩ <;> rfl

/-- Claim C1, amended: for every well-formed request body the service
responds HTTP 200 with status ok, thread_ts echoing the request, and an
analysis field holding the fixed placeholder string, a plain string rather
than a structured summary/detail object. -/
theorem c1_ok_response (request : AlertAnalysisRequest) :
    AnalysisHandler.AnalyzeAlertRequest (some request) =
      { status := 200
        body := Json.obj
          [ ("status", Json.str "ok")
          , ("thread_ts", Json.str request.ThreadTS)
          , ("analysis", Json.str "Analysis Complete!") ] } := rfl

/-- Claim C2, counterexample: for the OOMKilled example request on thread
t1, the analysis field is the fixed string produced by the placeholder
service, not a structured result whose summary is the alert annotation. -/
theorem c2_counterexample :
    getField (AnalysisHandler.AnalyzeAlertRequest (some oomRequest)).body "analysis"
      = some (Json.str "Analysis Complete!") ∧
    (getField (AnalysisHandler.AnalyzeAlertRequest (some oomRequest)).body
        "analysis").map Json.isObj = some false ∧
    ("Analysis Complete!" == "OOMKilled detected") = false := by
  refine ⟨rfl, rfl, ?_⟩
  decide

/-- Claim C2, amended: for the OOMKilled example request on thread t1 the
service answers 200 with status ok and thread_ts t1, and the analysis field
is the fixed placeholder string, independent of the alert content and of
any provider or collected context. -/
theorem c2_oom_response :
    AnalysisHandler.AnalyzeAlertRequest (some oomRequest) =
      { status := 200
        body := Json.obj
          [ ("status", Json.str "ok")
          , ("thread_ts", Json.str "t1")
          , ("analysis", Json.str "Analysis Complete!") ] } := rfl

/-- Claim C3: every request whose body binds successfully receives HTTP 200
with an analysis field holding the service result, and the 400 response
occurs exactly when binding fails: malformed input is the only error case. -/
theorem c3_only_malformed_errors (request : AlertAnalysisRequest)
    (bind : Option AlertAnalysisRequest) :
    (AnalysisHandler.AnalyzeAlertRequest (some request)).status = 200 ∧
    getField (AnalysisHandler.AnalyzeAlertRequest (some request)).body "analysis"
      = some (Json.str (AnalysisService.AnalyzeAlertRequest request)) ∧
    ((AnalysisHandler.AnalyzeAlertRequest bind).status = 400 ↔ bind = none) := by
  refine ⟨rfl, rfl, ?_⟩
  cases bind <;> simp [AnalysisHandler.AnalyzeAlertRequest]

/-- Claim C4: when binding the request body fails, the service answers
HTTP 400 with the invalid-payload error body, and that body carries no
analysis field: no analysis is produced. -/
theorem c4_malformed_response :
    AnalysisHandler.AnalyzeAlertRequest none =
      { status := 400, body := Json.obj [("error", Json.str "invalid payload")] } ∧
    getField (AnalysisHandler.AnalyzeAlertRequest none).body "analysis" = none := by
  exact ⟨rfl, rfl⟩

/-- Claim C5, counterexample: the route table of main.go registers no
POST /summarize-incident route. -/
theorem c5_counterexample :
    routes.contains ("POST", "/summarize-incident") = false := by decide

/-- Claim C5, amended: the service exposes no summarize-incident
operation; the only POST route it registers is /analyze/alertmanager. -/
theorem c5_post_routes :
    routes.filter (fun r => r.1 == "POST") = [("POST", "/analyze/alertmanager")] ∧
    routes.contains ("POST", "/summarize-incident") = false := by
  exact ⟨by decide, by decide⟩

/-- Claim C6: the analysis service returns the constant placeholder string
for every alert request and for every webhook: the output is wholly
independent of the input. -/
theorem c6_constant_analysis (request : AlertAnalysisRequest)
    (webhook : AlertmanagerWebhook) :
    AnalysisService.AnalyzeAlertRequest request = "Analysis Complete!" ∧
    AnalysisService.AnalyzeWebhook webhook = "Analysis Complete!" :=
  ⟨rfl, rfl⟩

/-- Claim C7: the successful response depends only on thread_ts — two
well-formed requests with equal thread_ts values, however their alerts and
callback URLs differ, produce identical responses; in particular the
callback_url field is never read. -/
theorem c7_response_depends_only_on_thread (r1 r2 : AlertAnalysisRequest)
    (h : r1.ThreadTS = r2.ThreadTS) :
    AnalysisHandler.AnalyzeAlertRequest (some r1) =
      AnalysisHandler.AnalyzeAlertRequest (some r2) := by
  simp [AnalysisHandler.AnalyzeAlertRequest, AnalysisService.AnalyzeAlertRequest, h]

/-- Witness for claim C7 at two concrete requests that share a thread_ts
but differ in alert content and callback URL. -/
theorem c7_witness :
    testRequest.ThreadTS = testRequestVariant.ThreadTS ∧
    AnalysisHandler.AnalyzeAlertRequest (some testRequest) =
      AnalysisHandler.AnalyzeAlertRequest (some testRequestVariant) :=
  ⟨rfl, c7_response_depends_only_on_thread testRequest testRequestVariant rfl⟩

/-- Claim C10: the three liveness handlers each answer HTTP 200 with a
fixed JSON body that is the same for every request context: no request
data or service state influences them. -/
theorem c10_health_endpoints (c : GinContext) :
    HealthHandler.Ping c =
      { status := 200, body := Json.obj [("message", Json.str "pong")] } ∧
    HealthHandler.Healthz c =
      { status := 200, body := Json.obj [("status", Json.str "ok")] } ∧
    HealthHandler.Root c =
      { status := 200
        body := Json.obj
          [ ("status", Json.str "ok")
          , ("message", Json.str "kube-rca-agent is running") ] } :=
  ⟨rfl, rfl, rfl⟩

/-- The ordered ruleset acts on text word by word. -/
theorem mask_eq_map (rules : List MaskRule) (text : List String) :
    mask rules text = text.map (fun w => maskWord rules w) := by
  induction rules generalizing text with
  | nil => simp [mask, maskWord]
  | cons r rs ih => simp [mask, applyRule, ih, List.map_map, maskWord, Function.comp]

/-- A word matched by no pattern of the ruleset passes through unchanged. -/
theorem maskWord_clean (rules : List MaskRule) (w : String)
    (h : ∀ r ∈ rules, r.pattern w = false) : maskWord rules w = w := by
  induction rules with
  | nil => rfl
  | cons r rs ih =>
    have hr : r.pattern w = false := h r (List.mem_cons_self r rs)
    simp only [maskWord, hr, Bool.false_eq_true, if_false]
    exact ih fun q hq => h q (List.mem_cons_of_mem r hq)

/-- Masking a word by a sub-ruleset either leaves it untouched with no
pattern of the sub-ruleset matching it, or yields the replacement of some
rule of the full ruleset: the case analysis behind idempotence. -/
theorem maskWord_cases (full : List MaskRule)
    (hclean : ∀ r ∈ full, ∀ q ∈ full, q.pattern r.replacement = false)
    (rs : List MaskRule) (hsub : ∀ r ∈ rs, r ∈ full) (w : String) :
    (maskWord rs w = w ∧ ∀ r ∈ rs, r.pattern w = false) ∨
    (∃ r ∈ full, maskWord rs w = r.replacement) := by
  induction rs generalizing w with
  | nil => exact Or.inl ⟨rfl, by simp⟩
  | cons r rs ih =>
    have hrfull : r ∈ full := hsub r (List.mem_cons_self r rs)
    have hsub2 : ∀ q ∈ rs, q ∈ full := fun q hq => hsub q (List.mem_cons_of_mem r hq)
    by_cases hp : r.pattern w = true
    · refine Or.inr ⟨r, hrfull, ?_⟩
      simp only [maskWord, hp, if_true]
      exact maskWord_clean rs r.replacement fun q hq => hclean r hrfull q (hsub2 q hq)
    · have hp2 : r.pattern w = false := Bool.eq_false_iff.mpr hp
      rcases ih hsub2 w with ⟨he, hall⟩ | hrep
      · refine Or.inl ⟨?_, ?_⟩
        · simp only [maskWord, hp2, Bool.false_eq_true, if_false]
          exact he
        · intro q hq
          rcases List.mem_cons.mp hq with hq1 | hq2
          · rw [hq1]; exact hp2
          · exact hall q hq2
      · refine Or.inr ?_
        simpa only [maskWord, hp2, Bool.false_eq_true, if_false] using hrep

/-- After masking with a clean-placeholder ruleset, no pattern of the
ruleset matches the resulting word. -/
theorem maskWord_result_clean (rules : List MaskRule)
    (hclean : ∀ r ∈ rules, ∀ q ∈ rules, q.pattern r.replacement = false)
    (w : String) : ∀ q ∈ rules, q.pattern (maskWord rules w) = false := by
  rcases maskWord_cases rules hclean rules (fun _ h => h) w with ⟨he, hall⟩ | ⟨r, hr, he⟩
  · rw [he]; exact hall
  · rw [he]; exact fun q hq => hclean r hr q hq

/-- A map that fixes every element of a list is the identity on it. -/
theorem map_self_of_fix (l : List String) (f : String → String)
    (h : ∀ w ∈ l, f w = w) : l.map f = l := by
  induction l with
  | nil => rfl
  | cons a l ih =>
    simp only [List.map_cons, List.cons.injEq]
    exact ⟨h a (by simp), ih fun w hw => h w (by simp [hw])⟩

/-- Claim C8, counterexample: with a configured ruleset whose second
placeholder is matched by the first pattern, mask is not idempotent and
its output still contains a configured pattern match. -/
theorem c8_counterexample :
    (mask badRules (mask badRules ["a"]) == mask badRules ["a"]) = false ∧
    (mask badRules ["a"]).all (fun w => !(matchesAny badRules w)) = false := by
  constructor <;> decide

/-- Claim C8, amended: for every ruleset whose replacement placeholders
are matched by no configured pattern, and every input text, mask is
idempotent and its output contains no remaining match of any configured
pattern. -/
theorem c8_mask_idempotent (rules : List MaskRule) (text : List String)
    (h : placeholdersClean rules = true) :
    mask rules (mask rules text) = mask rules text ∧
    (mask rules text).all (fun w => !(matchesAny rules w)) = true := by
  have hclean : ∀ r ∈ rules, ∀ q ∈ rules, q.pattern r.replacement = false := by
    simpa only [placeholdersClean, List.all_eq_true, Bool.not_eq_true'] using h
  have hres : ∀ w0 : String, ∀ q ∈ rules, q.pattern (maskWord rules w0) = false :=
    fun w0 => maskWord_result_clean rules hclean w0
  constructor
  · rw [mask_eq_map rules (mask rules text)]
    refine map_self_of_fix (mask rules text) _ ?_
    intro w hw
    rw [mask_eq_map] at hw
    rcases List.mem_map.mp hw with ⟨w0, _, rfl⟩
    exact maskWord_clean rules (maskWord rules w0) (hres w0)
  · rw [List.all_eq_true]
    intro w hw
    rw [mask_eq_map] at hw
    rcases List.mem_map.mp hw with ⟨w0, _, rfl⟩
    simp only [matchesAny, Bool.not_eq_true', List.any_eq_false]
    exact fun r hr => by simp [hres w0 r hr]

/-- Witness for claim C8 on the social-security ruleset and text of the
specification example. -/
theorem c8_witness :
    placeholdersClean ssnRules = true ∧
    (mask ssnRules (mask ssnRules ssnText) = mask ssnRules ssnText ∧
      (mask ssnRules ssnText).all (fun w => !(matchesAny ssnRules w)) = true) :=
  ⟨by decide, c8_mask_idempotent ssnRules ssnText (by decide)⟩

/-- The fitting walk never pushes the running estimate past the budget
when it starts at or below it. -/
theorem fitSections_le (budget : Nat) (sections : List (List String)) :
    ∀ acc : Nat, acc ≤ budget → (fitSections budget acc sections).2 ≤ budget := by
  induction sections with
  | nil => intro acc h; simpa [fitSections] using h
  | cons s rest ih =>
    intro acc h
    by_cases hfit : acc + sectionEstimate s ≤ budget
    · simpa [fitSections, hfit] using ih (acc + sectionEstimate s) hfit
    · simpa [fitSections, hfit] using ih acc h

/-- Claim C9, counterexample: with a zero token budget the identity
section, always included verbatim, already pushes the carried estimate
above the configured budget. -/
theorem c9_counterexample :
    zeroConfig.tokenBudget < (buildPrompt zeroConfig oomAlert [] demoBundle).estimate := by
  decide

/-- Claim C9, amended: whenever the identity section of the alert fits
within the configured token budget, the PromptDocument produced by the
budgeter carries an estimated token size at most the budget, sections that
would overflow it being omitted. -/
theorem c9_prompt_within_budget (cfg : PromptConfig) (alert : Alert)
    (summaries : List String) (bundle : ContextBundle)
    (h : sectionEstimate (identitySection alert) ≤ cfg.tokenBudget) :
    (buildPrompt cfg alert summaries bundle).estimate ≤ cfg.tokenBudget := by
  simpa [buildPrompt] using
    fitSections_le cfg.tokenBudget (candidateSections cfg summaries bundle)
      (sectionEstimate (identitySection alert)) h

/-- Witness for claim C9 on a concrete alert, summary list, bundle and the
default configuration. -/
theorem c9_witness :
    sectionEstimate (identitySection oomAlert) ≤ demoConfig.tokenBudget ∧
    (buildPrompt demoConfig oomAlert ["prior summary"] demoBundle).estimate
      ≤ demoConfig.tokenBudget :=
  ⟨by decide,
    c9_prompt_within_budget demoConfig oomAlert ["prior summary"] demoBundle (by decide)⟩

end KubeRca
